import Mathlib

/-!
Verification of the Seelen-UI background event window service
(`src/background/windows_api/event_window.rs`) and the injected global hook
module (`src/hook/lib.rs`), as a shallow embedding in Lean 4.

OS primitives (window creation, hook installation, `GetClassNameW`,
`CallNextHookEx`, `DefWindowProcW`) are modelled as explicit parameters
describing the outcome the OS produced; the Rust control flow around them is
translated function by function.  Stateful executions are modelled as explicit
event traces.
-/

namespace EventWindow

/-- The Rust callback type `Box<dyn Fn(u32, usize, isize) -> Result<()>>`:
a function of (message id, wparam, lparam) returning success or an error. -/
abbrev Callback := Nat → Nat → Int → Except String Unit

/-- `WM_DESTROY` message identifier (Windows value `0x0002`). -/
def WM_DESTROY : Nat := 2

/-- `subscribe_to_background_window`: pushes the callback at the end of the
`CALLBACKS` vector (under the mutex; the lock serialises pushes, so a
sequence of subscribe calls is a sequence of appends). -/
def subscribe_to_background_window (callbacks : List Callback) (f : Callback) :
    List Callback :=
  callbacks ++ [f]

/-- Registering a whole sequence of callbacks by successive
`subscribe_to_background_window` calls, starting from the empty list. -/
def subscribeAll (fs : List Callback) : List Callback :=
  fs.foldl subscribe_to_background_window []

/-- The loop `for callback in CALLBACKS.lock().iter() { log_error!(callback(msg,
w_param.0, l_param.0)); }` of `window_proc`.  It returns the invocation trace —
one entry `(index, msg, wParam, lParam)` per callback actually called, in call
order — together with the indices whose callback returned an error (those are
logged by `log_error!` and otherwise ignored). -/
def runCallbacks (callbacks : List Callback) (msg wParam : Nat) (lParam : Int)
    (idx : Nat) : List (Nat × Nat × Nat × Int) × List Nat :=
  match callbacks with
  | [] => ([], [])
  | c :: rest =>
    let r := c msg wParam lParam
    let rec_result := runCallbacks rest msg wParam lParam (idx + 1)
    ((idx, msg, wParam, lParam) :: rec_result.1,
      match r with
      | .ok _ => rec_result.2
      | .error _ => idx :: rec_result.2)

/-- Observable outcome of one `window_proc` invocation. -/
structure DispatchResult where
  /-- invocation trace: one entry per subscriber callback called -/
  calls : List (Nat × Nat × Nat × Int)
  /-- indices of callbacks whose result was `Err` (logged by `log_error!`) -/
  loggedErrors : List Nat
  /-- whether `PostQuitMessage(0)` was executed -/
  quitPosted : Bool
  /-- the `LRESULT` returned to the OS -/
  result : Int
  deriving DecidableEq

/-- `window_proc`: on `WM_DESTROY` it posts the quit message and returns
`LRESULT(0)` without touching the callbacks; otherwise it runs every
registered callback in order (errors only logged) and returns
`DefWindowProcW`.  `defWindowProc` models `DefWindowProcW hwnd msg w l`. -/
def window_proc (defWindowProc : Nat → Nat → Int → Int)
    (callbacks : List Callback) (msg wParam : Nat) (lParam : Int) :
    DispatchResult :=
  if msg = WM_DESTROY then
    { calls := [], loggedErrors := [], quitPosted := true, result := 0 }
  else
    let r := runCallbacks callbacks msg wParam lParam 0
    { calls := r.1, loggedErrors := r.2, quitPosted := false,
      result := defWindowProc msg wParam lParam }

/-- A message retrieved by `GetMessageW` and handed to `DispatchMessageW`. -/
structure MsgIn where
  msg : Nat
  wParam : Nat
  lParam : Int
  deriving DecidableEq

/-- The pump loop `while GetMessageW(..) { Translate; Dispatch }`: each queued
message is dispatched through `window_proc`; once `PostQuitMessage` has run,
the next `GetMessageW` retrieves `WM_QUIT`, returns false and the loop exits,
so no message after the quit-posting one is ever dispatched. -/
def pump_loop (defWindowProc : Nat → Nat → Int → Int)
    (callbacks : List Callback) : List MsgIn → List DispatchResult
  | [] => []
  | m :: rest =>
    let r := window_proc defWindowProc callbacks m.msg m.wParam m.lParam
    if r.quitPosted then [r] else r :: pump_loop defWindowProc callbacks rest

theorem subscribeAll_eq (fs : List Callback) : subscribeAll fs = fs := by
  suffices h : ∀ acc : List Callback,
      fs.foldl subscribe_to_background_window acc = acc ++ fs by
    simpa [subscribeAll] using h []
  induction fs with
  | nil => intro acc; simp
  | cons f rest ih =>
    intro acc
    simp [List.foldl_cons, subscribe_to_background_window, ih]

theorem runCallbacks_calls (callbacks : List Callback) (msg wParam : Nat)
    (lParam : Int) (idx : Nat) :
    (runCallbacks callbacks msg wParam lParam idx).1 =
      (List.range' idx callbacks.length).map (fun i => (i, msg, wParam, lParam)) := by
  induction callbacks generalizing idx with
  | nil => simp [runCallbacks]
  | cons c rest ih =>
    simp only [runCallbacks, List.length_cons, List.range'_succ, List.map_cons]
    exact congrArg _ (ih (idx + 1))

/-- C1: with a `msg ≠ WM_DESTROY` dispatch after any sequence of subscribe
calls, the invocation trace is exactly one entry per registered callback,
indices `0, 1, …, n-1` in registration order, each with the dispatched
`(msg, wParam, lParam)`. -/
theorem window_proc_calls_each_once_in_order (fs : List Callback)
    (defWindowProc : Nat → Nat → Int → Int) (msg wParam : Nat) (lParam : Int)
    (hmsg : msg ≠ WM_DESTROY) :
    (window_proc defWindowProc (subscribeAll fs) msg wParam lParam).calls =
      (List.range fs.length).map (fun i => (i, msg, wParam, lParam)) := by
  rw [subscribeAll_eq]
  simp only [window_proc, if_neg hmsg]
  rw [runCallbacks_calls fs msg wParam lParam 0, List.range_eq_range']

/-- A subscriber callback that always succeeds. -/
def cbOk : Callback := fun _ _ _ => .ok ()

/-- A subscriber callback that always fails. -/
def cbFail : Callback := fun _ _ _ => .error "boom"

/-- Witness for C1: two subscribers, message 42 with params (7, 9): both are
invoked once, in registration order, with exactly those arguments. -/
theorem window_proc_calls_each_once_in_order_witness :
    (window_proc (fun _ _ _ => 0) (subscribeAll [cbOk, cbOk]) 42 7 9).calls =
      [(0, 42, 7, 9), (1, 42, 7, 9)] := by
  rw [window_proc_calls_each_once_in_order [cbOk, cbOk] (fun _ _ _ => 0) 42 7 9
    (by decide)]
  decide

theorem runCallbacks_errors_mem (msg wParam : Nat) (lParam : Int) (e : String) :
    ∀ (callbacks : List Callback) (idx k : Nat) (hk : k < callbacks.length),
      callbacks.get ⟨k, hk⟩ msg wParam lParam = .error e →
      idx + k ∈ (runCallbacks callbacks msg wParam lParam idx).2 := by
  intro callbacks
  induction callbacks with
  | nil => intro idx k hk _; exact absurd hk (by simp)
  | cons c rest ih =>
    intro idx k hk herr
    cases k with
    | zero =>
      have herr0 : c msg wParam lParam = .error e := herr
      simp [runCallbacks, herr0]
    | succ k =>
      have h2 : k < rest.length := Nat.lt_of_succ_lt_succ hk
      have herr2 : rest.get ⟨k, h2⟩ msg wParam lParam = .error e := herr
      have hmem := ih (idx + 1) k h2 herr2
      have hadd : idx + (k + 1) = (idx + 1) + k := by omega
      rw [hadd]
      simp only [runCallbacks]
      cases c msg wParam lParam with
      | ok _ => exact hmem
      | error _ => exact List.mem_cons_of_mem _ hmem

/-- C2: a callback that returns an error does not stop delivery: every
registered callback is still invoked exactly once for the message, and the
failing index appears among the logged errors. -/
theorem failing_callback_does_not_stop_delivery (callbacks : List Callback)
    (defWindowProc : Nat → Nat → Int → Int) (msg wParam : Nat) (lParam : Int)
    (k : Nat) (hk : k < callbacks.length) (e : String)
    (hmsg : msg ≠ WM_DESTROY)
    (herr : callbacks.get ⟨k, hk⟩ msg wParam lParam = .error e) :
    (window_proc defWindowProc callbacks msg wParam lParam).calls =
      (List.range callbacks.length).map (fun i => (i, msg, wParam, lParam)) ∧
    k ∈ (window_proc defWindowProc callbacks msg wParam lParam).loggedErrors := by
  constructor
  · simp only [window_proc, if_neg hmsg]
    rw [runCallbacks_calls callbacks msg wParam lParam 0, List.range_eq_range']
  · simp only [window_proc, if_neg hmsg]
    have := runCallbacks_errors_mem msg wParam lParam e callbacks 0 k hk herr
    simpa using this

/-- Witness for C2: three subscribers with the middle one always failing, on
message 42 (7, 9): all three are invoked once in order and index 1 is logged
as failed. -/
theorem failing_callback_does_not_stop_delivery_witness :
    (window_proc (fun _ _ _ => 0) [cbOk, cbFail, cbOk] 42 7 9).calls =
      [(0, 42, 7, 9), (1, 42, 7, 9), (2, 42, 7, 9)] ∧
    1 ∈ (window_proc (fun _ _ _ => 0) [cbOk, cbFail, cbOk] 42 7 9).loggedErrors := by
  have h := failing_callback_does_not_stop_delivery [cbOk, cbFail, cbOk]
    (fun _ _ _ => 0) 42 7 9 1 (by decide) "boom" (by decide) rfl
  exact ⟨by rw [h.1]; decide, h.2⟩

theorem window_proc_quitPosted (defWindowProc : Nat → Nat → Int → Int)
    (callbacks : List Callback) (msg wParam : Nat) (lParam : Int) :
    (window_proc defWindowProc callbacks msg wParam lParam).quitPosted =
      decide (msg = WM_DESTROY) := by
  by_cases h : msg = WM_DESTROY <;> simp [window_proc, h]

/-- C3: the destroy message is not forwarded to any subscriber (its invocation
trace is empty), and the pump loop dispatches exactly the messages before the
first destroy message plus that destroy message itself — nothing queued after
it is ever dispatched, whatever the subscriber list is. -/
theorem destroy_terminates_pump (defWindowProc : Nat → Nat → Int → Int)
    (callbacks : List Callback) (pre post : List MsgIn) (d : MsgIn)
    (hpre : ∀ m ∈ pre, m.msg ≠ WM_DESTROY) (hd : d.msg = WM_DESTROY) :
    (window_proc defWindowProc callbacks d.msg d.wParam d.lParam).calls = [] ∧
    pump_loop defWindowProc callbacks (pre ++ d :: post) =
      pre.map (fun m => window_proc defWindowProc callbacks m.msg m.wParam m.lParam)
        ++ [window_proc defWindowProc callbacks d.msg d.wParam d.lParam] := by
  constructor
  · simp [window_proc, hd]
  · induction pre with
    | nil =>
      simp only [List.nil_append, pump_loop, List.map_nil, List.singleton_append]
      rw [window_proc_quitPosted]
      simp [hd]
    | cons m rest ih =>
      have hm : m.msg ≠ WM_DESTROY := hpre m (List.mem_cons_self m rest)
      have hrest : ∀ x ∈ rest, x.msg ≠ WM_DESTROY :=
        fun x hx => hpre x (List.mem_cons_of_mem m hx)
      have hq : (window_proc defWindowProc callbacks m.msg m.wParam m.lParam).quitPosted
          = false := by
        rw [window_proc_quitPosted]; simp [hm]
      simp only [List.cons_append, pump_loop, hq, List.map_cons, List.append_eq]
      rw [ih hrest]
      simp

/-- Witness for C3: one ordinary message, then the destroy message, then one
message queued after it: the trace shows only the first dispatch and the
destroy dispatch (which invokes no subscriber); the queued-after message is
never dispatched. -/
theorem destroy_terminates_pump_witness :
    pump_loop (fun _ _ _ => 0) [cbOk] [⟨42, 7, 9⟩, ⟨2, 0, 0⟩, ⟨99, 1, 1⟩] =
      [window_proc (fun _ _ _ => 0) [cbOk] 42 7 9,
        window_proc (fun _ _ _ => 0) [cbOk] 2 0 0] ∧
    (window_proc (fun _ _ _ => 0) [cbOk] 2 0 0).calls = [] := by
  have h := destroy_terminates_pump (fun _ _ _ => 0) [cbOk] [⟨42, 7, 9⟩]
    [⟨99, 1, 1⟩] ⟨2, 0, 0⟩ (by decide) rfl
  exact ⟨by simpa using h.2, h.1⟩

/-- Errors of the fallible calls in the pump-thread bootstrap, plus the error
the caller sees when the readiness channel disconnects before sending. -/
inductive OsErr where
  | moduleHandleErr
  | windowCreationErr
  | notifRegistrationErr
  | recvDisconnected
  deriving DecidableEq

/-- Outcome the OS produces for each call of the pump-thread bootstrap.
`registerClassAtom` is the `ATOM` returned by `RegisterClassW` — `0` means
class registration failed; the code discards this value without checking it.
`CreateWindowExW` in the windows crate returns `Err` exactly when the created
handle is null, so a successful outcome carries a handle the crate has
checked to be non-null; that platform contract is carried as a hypothesis
where a theorem needs it. -/
structure OsOutcome where
  moduleHandle : Except OsErr Nat
  registerClassAtom : Nat
  createWindow : Except OsErr Int
  registerNotif : Except OsErr Nat

/-- Observable events of one run of the pump thread, in program order. -/
inductive PumpEvent where
  | registerClass (atom : Nat)
  | storeHwnd (h : Int)
  | registerNotif
  | sendReady
  | dispatched (r : DispatchResult)
  deriving DecidableEq

/-- `_create_background_window`: registers the window class (the returned atom
is discarded), creates the window (`?`), stores the handle into
`BACKGROUND_HWND`, registers for device notifications (`?`), signals
readiness through the channel (`done.send(())`) and runs the message pump.
Returns the event trace of the run and the thread's `Result`. -/
def _create_background_window (os : OsOutcome)
    (defWindowProc : Nat → Nat → Int → Int) (callbacks : List Callback)
    (msgs : List MsgIn) : List PumpEvent × Except OsErr Unit :=
  match os.moduleHandle with
  | .error e => ([], .error e)
  | .ok _ =>
    match os.createWindow with
    | .error e => ([.registerClass os.registerClassAtom], .error e)
    | .ok h =>
      match os.registerNotif with
      | .error e =>
        ([.registerClass os.registerClassAtom, .storeHwnd h], .error e)
      | .ok _ =>
        ([.registerClass os.registerClassAtom, .storeHwnd h,
            .registerNotif, .sendReady]
          ++ (pump_loop defWindowProc callbacks msgs).map .dispatched, .ok ())

/-- Whether the readiness signal has been sent within a trace prefix. -/
def readyAfter (events : List PumpEvent) : Bool :=
  events.any fun e => match e with | .sendReady => true | _ => false

/-- One step of the `BACKGROUND_HWND` atomic: a store overwrites the value,
every other event leaves it unchanged. -/
def hwndStep (v : Int) (e : PumpEvent) : Int :=
  match e with | .storeHwnd h => h | _ => v

/-- Value of the `BACKGROUND_HWND` atomic after a trace prefix (it starts at
the zero sentinel `AtomicIsize::new(0)`). -/
def hwndAfter (events : List PumpEvent) : Int :=
  events.foldl hwndStep 0

/-- The store events of a trace. -/
def storeEvents (events : List PumpEvent) : List PumpEvent :=
  events.filter fun e => match e with | .storeHwnd _ => true | _ => false

/-- The subscriber-dispatch events of a trace. -/
def dispatchEvents (events : List PumpEvent) : List PumpEvent :=
  events.filter fun e => match e with | .dispatched _ => true | _ => false

/-- `create_background_window`: spawns the pump thread (whose own `Result` is
only logged, not propagated) and blocks on `rx.recv()`; the receive returns
exactly when the pump thread executed `done.send(())`, and fails with a
disconnect error if the thread terminated without sending. -/
def create_background_window (os : OsOutcome)
    (defWindowProc : Nat → Nat → Int → Int) (callbacks : List Callback)
    (msgs : List MsgIn) : Except OsErr Unit :=
  if readyAfter (_create_background_window os defWindowProc callbacks msgs).1
  then .ok () else .error .recvDisconnected

theorem readyAfter_dispatched (rs : List DispatchResult) :
    readyAfter (rs.map PumpEvent.dispatched) = false := by
  induction rs with
  | nil => rfl
  | cons r rest ih => simp only [List.map_cons, readyAfter, List.any_cons]; exact ih

theorem storeEvents_dispatched (rs : List DispatchResult) :
    storeEvents (rs.map PumpEvent.dispatched) = [] := by
  induction rs with
  | nil => rfl
  | cons r rest ih =>
    simp only [List.map_cons, storeEvents, List.filter_cons]
    exact ih

theorem foldl_hwndStep_no_store (l : List PumpEvent) (hl : storeEvents l = [])
    (v : Int) : l.foldl hwndStep v = v := by
  induction l generalizing v with
  | nil => rfl
  | cons e rest ih =>
    cases e with
    | storeHwnd h => simp [storeEvents] at hl
    | registerClass a =>
      rw [List.foldl_cons]
      exact ih (by simpa [storeEvents] using hl) v
    | registerNotif =>
      rw [List.foldl_cons]
      exact ih (by simpa [storeEvents] using hl) v
    | sendReady =>
      rw [List.foldl_cons]
      exact ih (by simpa [storeEvents] using hl) v
    | dispatched r =>
      rw [List.foldl_cons]
      exact ih (by simpa [storeEvents] using hl) v

theorem storeEvents_take (l : List PumpEvent) (p : Nat)
    (hl : storeEvents l = []) : storeEvents (l.take p) = [] := by
  have hsub : List.Sublist (storeEvents (l.take p)) (storeEvents l) :=
    List.Sublist.filter _ (List.take_sublist p l)
  rw [hl] at hsub
  exact List.sublist_nil.mp hsub

/-- The event trace of one run of the pump thread. -/
def bootTrace (os : OsOutcome) (defWindowProc : Nat → Nat → Int → Int)
    (callbacks : List Callback) (msgs : List MsgIn) : List PumpEvent :=
  (_create_background_window os defWindowProc callbacks msgs).1

/-- OS outcome where class registration fails (returned atom 0) while every
call whose result the code checks succeeds. -/
def osClassFail : OsOutcome :=
  { moduleHandle := .ok 1, registerClassAtom := 0, createWindow := .ok 5,
    registerNotif := .ok 1 }

/-- C4 counterexample: `RegisterClassW`'s returned atom is discarded without
a check, so when class registration fails (atom 0) while the other calls
succeed, `create_background_window` still returns `Ok` instead of failing. -/
theorem start_succeeds_despite_class_registration_failure :
    create_background_window osClassFail (fun _ _ _ => 0) [] [] = .ok () := rfl

/-- C4 amended: `create_background_window` returns `Ok` exactly when the pump
thread reached the readiness signal, which happens exactly when module-handle
lookup, window creation and device-notification registration all succeeded
(class registration is never checked); when the call fails, the error the
caller sees is the channel-disconnect error, the spawned thread's own result
is an error, and no subscriber dispatch ever occurred. -/
theorem create_background_window_ready_or_fails (os : OsOutcome)
    (defWindowProc : Nat → Nat → Int → Int) (callbacks : List Callback)
    (msgs : List MsgIn) :
    (create_background_window os defWindowProc callbacks msgs = .ok () ↔
      readyAfter (bootTrace os defWindowProc callbacks msgs) = true) ∧
    (create_background_window os defWindowProc callbacks msgs = .ok () ↔
      ((∃ m, os.moduleHandle = .ok m) ∧ (∃ h, os.createWindow = .ok h) ∧
        (∃ n, os.registerNotif = .ok n))) ∧
    (create_background_window os defWindowProc callbacks msgs =
        .error .recvDisconnected →
      dispatchEvents (bootTrace os defWindowProc callbacks msgs) = [] ∧
        (_create_background_window os defWindowProc callbacks msgs).2 ≠
          .ok ()) := by
  rcases hm : os.moduleHandle with e1 | m <;>
    rcases hw : os.createWindow with e2 | h <;>
      rcases hn : os.registerNotif with e3 | n <;>
        simp [create_background_window, _create_background_window, bootTrace,
          readyAfter, dispatchEvents, readyAfter_dispatched, hm, hw, hn]

/-- OS outcome where window creation fails and everything else succeeds. -/
def osWinFail : OsOutcome :=
  { moduleHandle := .ok 1, registerClassAtom := 7,
    createWindow := .error .windowCreationErr, registerNotif := .ok 1 }

/-- Witness for C4 (amended): when window creation fails, the start call
returns the disconnect error, the pump thread's own result is an error, and
no subscriber dispatch ever happened. -/
theorem create_background_window_ready_or_fails_witness :
    dispatchEvents (bootTrace osWinFail (fun _ _ _ => 0) [] []) = [] ∧
      (_create_background_window osWinFail (fun _ _ _ => 0) [] []).2 ≠
        .ok () := by
  have hmain := create_background_window_ready_or_fails osWinFail
    (fun _ _ _ => 0) [] []
  exact hmain.2.2 rfl

theorem hwndAfter_take_add_two (a : Nat) (h : Int) (rest : List PumpEvent)
    (hrest : storeEvents rest = []) (p : Nat) :
    hwndAfter ((PumpEvent.registerClass a :: PumpEvent.storeHwnd h :: rest).take
      (p + 2)) = h := by
  have htake : (PumpEvent.registerClass a :: PumpEvent.storeHwnd h :: rest).take
      (p + 2) = PumpEvent.registerClass a :: PumpEvent.storeHwnd h :: rest.take p :=
    rfl
  rw [htake]
  show (rest.take p).foldl hwndStep h = h
  exact foldl_hwndStep_no_store _ (storeEvents_take rest p hrest) h

theorem hwndAfter_take_store_prefix (a : Nat) (h : Int) (rest : List PumpEvent)
    (hrest : storeEvents rest = []) (p : Nat) :
    hwndAfter ((PumpEvent.registerClass a :: PumpEvent.storeHwnd h :: rest).take p)
        = 0 ∨
      hwndAfter ((PumpEvent.registerClass a :: PumpEvent.storeHwnd h :: rest).take p)
        = h := by
  match p with
  | 0 => exact Or.inl rfl
  | 1 => exact Or.inl rfl
  | p + 2 => exact Or.inr (hwndAfter_take_add_two a h rest hrest p)

/-- OS outcome where every call succeeds, creating window handle 5. -/
def osAllOk : OsOutcome :=
  { moduleHandle := .ok 1, registerClassAtom := 7, createWindow := .ok 5,
    registerNotif := .ok 1 }

/-- C8 counterexample: after the first two events of a fully successful run
(class registration, then the atomic store) the readiness rendezvous has not
fired, yet the published handle already holds the non-zero value 5 — the
store precedes the signal, so a reader can observe the "ready" value before
the rendezvous. -/
theorem hwnd_nonzero_before_ready_fires :
    readyAfter ((bootTrace osAllOk (fun _ _ _ => 0) [] []).take 2) = false ∧
    hwndAfter ((bootTrace osAllOk (fun _ _ _ => 0) [] []).take 2) = 5 :=
  ⟨rfl, rfl⟩

/-- C8 amended: once the readiness rendezvous has fired (the trace prefix
contains the send event), the published handle equals the created window's
non-null handle and keeps that value on every longer prefix; the store
happens before the signal, so the non-zero value can already be visible
before the rendezvous (see the counterexample). -/
theorem hwnd_valid_stable_after_ready (os : OsOutcome)
    (defWindowProc : Nat → Nat → Int → Int) (callbacks : List Callback)
    (msgs : List MsgIn) (h : Int) (p : Nat)
    (hw : os.createWindow = .ok h) (hnz : h ≠ 0)
    (hp : readyAfter ((bootTrace os defWindowProc callbacks msgs).take p) = true) :
    h ≠ 0 ∧
    hwndAfter ((bootTrace os defWindowProc callbacks msgs).take p) = h ∧
    ∀ q, p ≤ q →
      hwndAfter ((bootTrace os defWindowProc callbacks msgs).take q) = h := by
  rcases hm : os.moduleHandle with e1 | m
  · rw [show bootTrace os defWindowProc callbacks msgs = [] by
      simp [bootTrace, _create_background_window, hm]] at hp
    simp [readyAfter] at hp
  rcases hn : os.registerNotif with e3 | n
  · rw [show bootTrace os defWindowProc callbacks msgs =
        [PumpEvent.registerClass os.registerClassAtom, PumpEvent.storeHwnd h] by
      simp [bootTrace, _create_background_window, hm, hw, hn]] at hp
    match p with
    | 0 => simp [readyAfter] at hp
    | 1 => simp [readyAfter] at hp
    | p + 2 => simp [readyAfter] at hp
  have htr : bootTrace os defWindowProc callbacks msgs =
      PumpEvent.registerClass os.registerClassAtom :: PumpEvent.storeHwnd h ::
        PumpEvent.registerNotif :: PumpEvent.sendReady ::
          (pump_loop defWindowProc callbacks msgs).map PumpEvent.dispatched := by
    simp [bootTrace, _create_background_window, hm, hw, hn]
  have hrest : storeEvents (PumpEvent.registerNotif :: PumpEvent.sendReady ::
      (pump_loop defWindowProc callbacks msgs).map PumpEvent.dispatched) = [] := by
    simp [storeEvents]
  have hp4 : 4 ≤ p := by
    by_contra hlt
    push_neg at hlt
    rw [htr] at hp
    interval_cases p <;> simp [readyAfter] at hp
  refine ⟨hnz, ?_, ?_⟩
  · obtain ⟨p2, rfl⟩ : ∃ p2, p = p2 + 2 := ⟨p - 2, by omega⟩
    rw [htr]
    exact hwndAfter_take_add_two _ h _ hrest p2
  · intro q hq
    obtain ⟨q2, rfl⟩ : ∃ q2, q = q2 + 2 := ⟨q - 2, by omega⟩
    rw [htr]
    exact hwndAfter_take_add_two _ h _ hrest q2

/-- Witness for C8 (amended): in a fully successful run with handle 5, once
the rendezvous has fired (prefix of length 4), the published handle is 5 and
still 5 at every later point (length 9 shown). -/
theorem hwnd_valid_stable_after_ready_witness :
    hwndAfter ((bootTrace osAllOk (fun _ _ _ => 0) [] []).take 4) = 5 ∧
    hwndAfter ((bootTrace osAllOk (fun _ _ _ => 0) [] []).take 9) = 5 := by
  have hmain := hwnd_valid_stable_after_ready osAllOk (fun _ _ _ => 0) [] [] 5 4
    rfl (by decide) rfl
  exact ⟨hmain.2.1, hmain.2.2 9 (by omega)⟩

/-- C9: `BACKGROUND_HWND` is stored at most once per run — exactly once, with
the created window's handle, as soon as the fallible calls before the store
succeeded — and the published value transitions monotonically: the zero
sentinel on every prefix before the store, the single created handle on every
prefix from the store on, never reassigned. -/
theorem background_hwnd_write_once (os : OsOutcome)
    (defWindowProc : Nat → Nat → Int → Int) (callbacks : List Callback)
    (msgs : List MsgIn) :
    (storeEvents (bootTrace os defWindowProc callbacks msgs)).length ≤ 1 ∧
    (∀ m h, os.moduleHandle = .ok m → os.createWindow = .ok h →
      storeEvents (bootTrace os defWindowProc callbacks msgs) =
        [PumpEvent.storeHwnd h]) ∧
    (∀ h, os.createWindow = .ok h →
      ∀ p, hwndAfter ((bootTrace os defWindowProc callbacks msgs).take p) = 0 ∨
        hwndAfter ((bootTrace os defWindowProc callbacks msgs).take p) = h) := by
  rcases hm : os.moduleHandle with e1 | m
  · refine ⟨?_, ?_, ?_⟩ <;>
      simp [bootTrace, _create_background_window, hm, storeEvents, hwndAfter]
  rcases hw : os.createWindow with e2 | h0
  · refine ⟨?_, ?_, ?_⟩ <;>
      simp [bootTrace, _create_background_window, hm, hw, storeEvents, hwndAfter]
  rcases hn : os.registerNotif with e3 | n
  · have htr : bootTrace os defWindowProc callbacks msgs =
        [PumpEvent.registerClass os.registerClassAtom, PumpEvent.storeHwnd h0] := by
      simp [bootTrace, _create_background_window, hm, hw, hn]
    refine ⟨?_, ?_, ?_⟩
    · rw [htr]; simp [storeEvents]
    · intro m1 h1 _ hw1
      cases hw1
      rw [htr]; simp [storeEvents]
    · intro h1 hw1 p
      cases hw1
      rw [htr]
      exact hwndAfter_take_store_prefix _ h0 [] rfl p
  · have htr : bootTrace os defWindowProc callbacks msgs =
        PumpEvent.registerClass os.registerClassAtom :: PumpEvent.storeHwnd h0 ::
          PumpEvent.registerNotif :: PumpEvent.sendReady ::
            (pump_loop defWindowProc callbacks msgs).map PumpEvent.dispatched := by
      simp [bootTrace, _create_background_window, hm, hw, hn]
    have hrest : storeEvents (PumpEvent.registerNotif :: PumpEvent.sendReady ::
        (pump_loop defWindowProc callbacks msgs).map PumpEvent.dispatched) = [] := by
      simp [storeEvents]
    refine ⟨?_, ?_, ?_⟩
    · rw [htr]
      have hstores : storeEvents (PumpEvent.registerClass os.registerClassAtom ::
          PumpEvent.storeHwnd h0 :: PumpEvent.registerNotif :: PumpEvent.sendReady ::
            (pump_loop defWindowProc callbacks msgs).map PumpEvent.dispatched) =
          [PumpEvent.storeHwnd h0] := by
        simp [storeEvents]
      rw [hstores]
      simp
    · intro m1 h1 _ hw1
      cases hw1
      rw [htr]
      simp [storeEvents]
    · intro h1 hw1 p
      cases hw1
      rw [htr]
      exact hwndAfter_take_store_prefix _ h0 _ hrest p

/-- Witness for C9: in a fully successful run with handle 5, exactly one store
event occurs (value 5), and after one event the published value is still the
zero sentinel. -/
theorem background_hwnd_write_once_witness :
    storeEvents (bootTrace osAllOk (fun _ _ _ => 0) [] []) =
      [PumpEvent.storeHwnd 5] ∧
    (hwndAfter ((bootTrace osAllOk (fun _ _ _ => 0) [] []).take 1) = 0 ∨
      hwndAfter ((bootTrace osAllOk (fun _ _ _ => 0) [] []).take 1) = 5) := by
  have hmain := background_hwnd_write_once osAllOk (fun _ _ _ => 0) [] []
  exact ⟨hmain.2.1 1 5 rfl rfl, hmain.2.2 5 rfl 1⟩

end EventWindow

namespace HookModule

/-- `get_class`: lets `GetClassNameW` fill a 512-unit `u16` buffer, converts
the returned `i32` length with `usize::try_from(len).unwrap_or(0)` (negative
lengths become 0) and slices `&text[..length]`.  `osLen` is the length the OS
reported and `text` the buffer contents after the call.  The result is the
list of UTF-16 units handed to `String::from_utf16_lossy`; `none` models the
panic of an out-of-bounds slice. -/
def get_class (osLen : Int) (text : List Nat) : Option (List Nat) :=
  let length := osLen.toNat
  if length ≤ text.length then some (text.take length) else none

/-- C10: under the `GetClassNameW` contract (at most 511 units are written
into a 512-unit buffer, so the reported length is at most 511), `get_class`
is total: a negative or unconvertible length is clamped to zero, giving the
empty string, and the result is always a prefix of the buffer of at most 512
units. -/
theorem get_class_total_and_bounded (osLen : Int) (text : List Nat)
    (hbuf : text.length = 512) (hlen : osLen ≤ 511) :
    (osLen < 0 → get_class osLen text = some []) ∧
    ∃ out, get_class osLen text = some out ∧ out.length ≤ 512 ∧
      out = text.take osLen.toNat := by
  have hle : osLen.toNat ≤ text.length := by
    rw [hbuf]
    omega
  constructor
  · intro hneg
    have h0 : osLen.toNat = 0 := Int.toNat_of_nonpos (le_of_lt hneg)
    simp [get_class, h0]
  · refine ⟨text.take osLen.toNat, ?_, ?_, rfl⟩
    · simp [get_class, hle]
    · rw [List.length_take]
      omega

/-- Witness for C10: reported length 3 on a buffer of 512 copies of unit 65
yields the first three units. -/
theorem get_class_total_and_bounded_witness :
    get_class 3 (List.replicate 512 65) = some [65, 65, 65] := by
  have hmain := get_class_total_and_bounded 3 (List.replicate 512 65)
    (by rw [List.length_replicate]) (by norm_num)
  obtain ⟨out, hout, _, hout2⟩ := hmain.2
  rw [hout, hout2]
  rfl

/-- Decoded `CWPSTRUCT` (payload of a `WH_CALLWNDPROC` hook). -/
structure Cwpstruct where
  lParam : Int
  wParam : Nat
  message : Nat
  hwnd : Int
  deriving DecidableEq

/-- Decoded `CWPRETSTRUCT` (payload of a `WH_CALLWNDPROCRET` hook). -/
structure Cwpretstruct where
  lResult : Int
  lParam : Int
  wParam : Nat
  message : Nat
  hwnd : Int
  deriving DecidableEq

/-- Decoded `MSG` (payload of a `WH_GETMESSAGE` hook). -/
structure MsgStruct where
  hwnd : Int
  message : Nat
  wParam : Nat
  lParam : Int
  deriving DecidableEq

/-- Outcome of one hook callback run: a normal return carrying the `LRESULT`
and the diagnostic records printed (window handle and class name), or a
panic. -/
inductive HookOutcome where
  | ret (value : Int) (logged : List (Int × String))
  | panicked
  deriving DecidableEq

/-- `win_proc_hook`: for a negative filter code it forwards immediately to
`CallNextHookEx` (`callNext`); otherwise it dereferences `l_param` as
`*const CWPSTRUCT` via `as_ref()` — `decodeCwp`, yielding `none` for a null
pointer — prints the window and its class name when the payload is present,
and in every path returns `CallNextHookEx`'s result. -/
def win_proc_hook (decodeCwp : Int → Option Cwpstruct)
    (className : Int → String) (callNext : Int → Nat → Int → Int)
    (nCode : Int) (wParam : Nat) (lParam : Int) : HookOutcome :=
  if nCode < 0 then .ret (callNext nCode wParam lParam) []
  else
    match decodeCwp lParam with
    | some data =>
      .ret (callNext nCode wParam lParam) [(data.hwnd, className data.hwnd)]
    | none => .ret (callNext nCode wParam lParam) []

/-- `win_proc_ret_hook`: same shape as `win_proc_hook` over `CWPRETSTRUCT`. -/
def win_proc_ret_hook (decodeRet : Int → Option Cwpretstruct)
    (className : Int → String) (callNext : Int → Nat → Int → Int)
    (nCode : Int) (wParam : Nat) (lParam : Int) : HookOutcome :=
  if nCode < 0 then .ret (callNext nCode wParam lParam) []
  else
    match decodeRet lParam with
    | some data =>
      .ret (callNext nCode wParam lParam) [(data.hwnd, className data.hwnd)]
    | none => .ret (callNext nCode wParam lParam) []

/-- `get_message_hook`: for a negative filter code it forwards immediately;
otherwise it dereferences `l_param` as `*const MSG` and calls `.unwrap()` on
the option — a null pointer therefore panics instead of being skipped — then
prints and forwards. -/
def get_message_hook (decodeMsg : Int → Option MsgStruct)
    (className : Int → String) (callNext : Int → Nat → Int → Int)
    (nCode : Int) (wParam : Nat) (lParam : Int) : HookOutcome :=
  if nCode < 0 then .ret (callNext nCode wParam lParam) []
  else
    match decodeMsg lParam with
    | some msg =>
      .ret (callNext nCode wParam lParam) [(msg.hwnd, className msg.hwnd)]
    | none => .panicked

/-- The four process-wide statics of the hook module
(`WIN_PROC_HOOK`, `WIN_PROC_RET_HOOK`, `GET_MESSAGE_HOOK`, `DLL_HANDLE`). -/
structure HookState where
  WIN_PROC_HOOK : Option Nat
  WIN_PROC_RET_HOOK : Option Nat
  GET_MESSAGE_HOOK : Option Nat
  DLL_HANDLE : Option Nat
  deriving DecidableEq

/-- `install_hook`: installs the three hooks in order — window-procedure
pre-call, window-procedure post-call, message-retrieval — with the outcome of
each `SetWindowsHookExW` call given by `os1`, `os2`, `os3`.  On the first
failure it returns `false` immediately: handles already stored stay stored
and the remaining installs are not attempted.  The returned list records
which installs were attempted, in order. -/
def install_hook (os1 os2 os3 : Except String Nat) (s : HookState) :
    HookState × Bool × List Nat :=
  match os1 with
  | .error _ => (s, false, [1])
  | .ok h1 =>
    let s1 := { s with WIN_PROC_HOOK := some h1 }
    match os2 with
    | .error _ => (s1, false, [1, 2])
    | .ok h2 =>
      let s2 := { s1 with WIN_PROC_RET_HOOK := some h2 }
      match os3 with
      | .error _ => (s2, false, [1, 2, 3])
      | .ok h3 => ({ s2 with GET_MESSAGE_HOOK := some h3 }, true, [1, 2, 3])

/-- C5: `install_hook` reports success iff all three installs succeed; when
step k is the first failure, it reports failure with the steps before k
retained in the process-wide state (no rollback), the later slots untouched,
and the installs after step k never attempted (the attempt list stops at k).
-/
theorem install_hook_first_failure_no_rollback (os1 os2 os3 : Except String Nat)
    (s : HookState) :
    ((install_hook os1 os2 os3 s).2.1 = true ↔
      ((∃ h1, os1 = .ok h1) ∧ (∃ h2, os2 = .ok h2) ∧ (∃ h3, os3 = .ok h3))) ∧
    (∀ e1, os1 = .error e1 →
      install_hook os1 os2 os3 s = (s, false, [1])) ∧
    (∀ h1 e2, os1 = .ok h1 → os2 = .error e2 →
      install_hook os1 os2 os3 s =
        ({ s with WIN_PROC_HOOK := some h1 }, false, [1, 2])) ∧
    (∀ h1 h2 e3, os1 = .ok h1 → os2 = .ok h2 → os3 = .error e3 →
      install_hook os1 os2 os3 s =
        ({ s with WIN_PROC_HOOK := some h1, WIN_PROC_RET_HOOK := some h2 },
          false, [1, 2, 3])) := by
  rcases os1 with e1 | h1 <;> rcases os2 with e2 | h2 <;>
    rcases os3 with e3 | h3 <;> simp [install_hook]

/-- The all-unset initial hook state with a recorded module handle. -/
def hookState0 : HookState :=
  { WIN_PROC_HOOK := none, WIN_PROC_RET_HOOK := none, GET_MESSAGE_HOOK := none,
    DLL_HANDLE := some 99 }

/-- Witness for C5: the second install fails: the call reports failure, the
first hook's handle (10) stays installed, the later slots stay empty, and
only installs 1 and 2 were attempted. -/
theorem install_hook_first_failure_no_rollback_witness :
    install_hook (.ok 10) (.error "denied") (.ok 30) hookState0 =
      ({ hookState0 with WIN_PROC_HOOK := some 10 }, false, [1, 2]) := by
  have hmain := install_hook_first_failure_no_rollback (.ok 10)
    (.error "denied") (.ok 30) hookState0
  exact hmain.2.2.1 10 "denied" rfl rfl

/-- A pointer decode that always yields null (models `l_param == 0`). -/
def decodeNull : Int → Option MsgStruct := fun _ => none

/-- A fixed class-name lookup. -/
def clsDefault : Int → String := fun _ => ""

/-- A fixed next-hook chain result. -/
def nextDefault : Int → Nat → Int → Int := fun _ _ _ => 7

/-- C6 counterexample: at filter code 0 with a null `MSG` pointer,
`get_message_hook` does not return the next-hook result at all — it panics
on `.unwrap()` — refuting "in all cases the callback's return value equals
the result of forwarding to the next hook" at this concrete input. -/
theorem get_message_hook_no_return_on_null :
    get_message_hook decodeNull clsDefault nextDefault 0 0 0 =
      HookOutcome.panicked := rfl

/-- C6 amended: for each of the three hooks, a negative filter code forwards
immediately with no payload inspection (the outcome does not depend on the
pointer-decode or class-name functions and nothing is printed); and in every
case in which the callback completes — always for the two window-procedure
hooks, and whenever the filter code is negative or the `MSG` pointer is
non-null for `get_message_hook` — its return value is exactly the result of
forwarding to the next hook in the chain. -/
theorem hooks_forward_to_next (dC dC2 : Int → Option Cwpstruct)
    (dR dR2 : Int → Option Cwpretstruct) (dM dM2 : Int → Option MsgStruct)
    (cls cls2 : Int → String) (callNext : Int → Nat → Int → Int)
    (nCode : Int) (wParam : Nat) (lParam : Int) :
    (nCode < 0 →
      win_proc_hook dC cls callNext nCode wParam lParam =
        .ret (callNext nCode wParam lParam) [] ∧
      win_proc_hook dC cls callNext nCode wParam lParam =
        win_proc_hook dC2 cls2 callNext nCode wParam lParam ∧
      win_proc_ret_hook dR cls callNext nCode wParam lParam =
        .ret (callNext nCode wParam lParam) [] ∧
      win_proc_ret_hook dR cls callNext nCode wParam lParam =
        win_proc_ret_hook dR2 cls2 callNext nCode wParam lParam ∧
      get_message_hook dM cls callNext nCode wParam lParam =
        .ret (callNext nCode wParam lParam) [] ∧
      get_message_hook dM cls callNext nCode wParam lParam =
        get_message_hook dM2 cls2 callNext nCode wParam lParam) ∧
    (∃ lg, win_proc_hook dC cls callNext nCode wParam lParam =
      .ret (callNext nCode wParam lParam) lg) ∧
    (∃ lg, win_proc_ret_hook dR cls callNext nCode wParam lParam =
      .ret (callNext nCode wParam lParam) lg) ∧
    (nCode < 0 ∨ dM lParam ≠ none →
      ∃ lg, get_message_hook dM cls callNext nCode wParam lParam =
        .ret (callNext nCode wParam lParam) lg) := by
  refine ⟨?_, ?_, ?_, ?_⟩
  · intro hneg
    simp [win_proc_hook, win_proc_ret_hook, get_message_hook, hneg]
  · by_cases hneg : nCode < 0
    · exact ⟨[], by simp [win_proc_hook, hneg]⟩
    · cases hdc : dC lParam with
      | some d =>
        exact ⟨[(d.hwnd, cls d.hwnd)], by simp [win_proc_hook, hneg, hdc]⟩
      | none => exact ⟨[], by simp [win_proc_hook, hneg, hdc]⟩
  · by_cases hneg : nCode < 0
    · exact ⟨[], by simp [win_proc_ret_hook, hneg]⟩
    · cases hdr : dR lParam with
      | some d =>
        exact ⟨[(d.hwnd, cls d.hwnd)], by simp [win_proc_ret_hook, hneg, hdr]⟩
      | none => exact ⟨[], by simp [win_proc_ret_hook, hneg, hdr]⟩
  · intro hcase
    by_cases hneg : nCode < 0
    · exact ⟨[], by simp [get_message_hook, hneg]⟩
    · cases hdm : dM lParam with
      | some m =>
        exact ⟨[(m.hwnd, cls m.hwnd)], by simp [get_message_hook, hneg, hdm]⟩
      | none =>
        rcases hcase with hlt | hne
        · exact absurd hlt hneg
        · exact absurd hdm hne

/-- Witness for C6 (amended): at filter code -1 every hook, even with a null
pointer, forwards immediately and returns the next-hook result. -/
theorem hooks_forward_to_next_witness :
    win_proc_hook (fun _ => none) clsDefault nextDefault (-1) 0 0 =
      HookOutcome.ret (nextDefault (-1) 0 0) [] ∧
    ∃ lg, get_message_hook decodeNull clsDefault nextDefault (-1) 0 0 =
      HookOutcome.ret (nextDefault (-1) 0 0) lg := by
  have hmain := hooks_forward_to_next (fun _ => none) (fun _ => none)
    (fun _ => none) (fun _ => none) decodeNull decodeNull clsDefault clsDefault
    nextDefault (-1) 0 0
  exact ⟨(hmain.1 (by norm_num)).1, hmain.2.2.2 (Or.inl (by norm_num))⟩

/-- C7 (code bug): at filter code 0 with a null payload pointer, the two
window-procedure hooks skip the payload and forward safely, but
`get_message_hook` panics on `.unwrap()` instead of catching the failure and
converting it into logging plus forwarding — the panic crosses the OS
chaining boundary. -/
theorem get_message_hook_panics_on_null_payload :
    win_proc_hook (fun _ => none) clsDefault nextDefault 0 4 0 =
      HookOutcome.ret (nextDefault 0 4 0) [] ∧
    win_proc_ret_hook (fun _ => none) clsDefault nextDefault 0 4 0 =
      HookOutcome.ret (nextDefault 0 4 0) [] ∧
    get_message_hook (fun _ => none) clsDefault nextDefault 0 4 0 =
      HookOutcome.panicked :=
  ⟨rfl, rfl, rfl⟩

end HookModule
